import Mathlib

/-!
Verification of ouroboroscoding/define-record-python.

Shallow embedding of the repository's core logic:
- `Storage.revision_generate` (src/record/storage.py, lines 178-294), the
  change-set generator.  Its recursive call sites reference
  `cls.generate_changes` (lines 222 and 267), an attribute that no class in
  the repository defines: the method itself is named `revision_generate`, and
  `define.Tree` — the external schema validator `Storage` extends — is not the
  diff routine.  The embedding therefore raises `AttributeError` exactly where
  the source does.
- `Data.field_set` (src/record/data.py, lines 321-369) together with the state
  set up by `Data.__init__` (lines 28-44).
- `Data.value` (src/record/data.py, lines 417-423), the shallow-copy property,
  modelled over a small heap so that sharing of nested objects is observable.
- `Cache.factory` / `Cache.register` (src/record/cache.py, lines 49-124).

Python values (scalars, dicts, lists) are embedded as the inductive `Value`;
dicts are insertion-ordered association lists, which is faithful to Python 3.7+
dict semantics.  Operations that can raise are embedded with `Except`.
-/

/-- A Python value as handled by the repository: a scalar (`None`, bool, int,
str), an insertion-ordered mapping, or a list. -/
inductive Value where
  | vnull : Value
  | vbool : Bool → Value
  | vint : Int → Value
  | vstr : String → Value
  | vdict : List (String × Value) → Value
  | vlist : List Value → Value

mutual

def valueDecEq : (a b : Value) → Decidable (a = b)
  | .vnull, .vnull => isTrue rfl
  | .vbool x, .vbool y =>
      if h : x = y then isTrue (by rw [h])
      else isFalse (by intro hh; injection hh; contradiction)
  | .vint x, .vint y =>
      if h : x = y then isTrue (by rw [h])
      else isFalse (by intro hh; injection hh; contradiction)
  | .vstr x, .vstr y =>
      if h : x = y then isTrue (by rw [h])
      else isFalse (by intro hh; injection hh; contradiction)
  | .vdict xs, .vdict ys =>
      match fieldsDecEq xs ys with
      | isTrue h => isTrue (by rw [h])
      | isFalse h => isFalse (by intro hh; injection hh; contradiction)
  | .vlist xs, .vlist ys =>
      match elemsDecEq xs ys with
      | isTrue h => isTrue (by rw [h])
      | isFalse h => isFalse (by intro hh; injection hh; contradiction)
  | .vnull, .vbool _ | .vnull, .vint _ | .vnull, .vstr _ | .vnull, .vdict _
  | .vnull, .vlist _ | .vbool _, .vnull | .vbool _, .vint _ | .vbool _, .vstr _
  | .vbool _, .vdict _ | .vbool _, .vlist _ | .vint _, .vnull | .vint _, .vbool _
  | .vint _, .vstr _ | .vint _, .vdict _ | .vint _, .vlist _ | .vstr _, .vnull
  | .vstr _, .vbool _ | .vstr _, .vint _ | .vstr _, .vdict _ | .vstr _, .vlist _
  | .vdict _, .vnull | .vdict _, .vbool _ | .vdict _, .vint _ | .vdict _, .vstr _
  | .vdict _, .vlist _ | .vlist _, .vnull | .vlist _, .vbool _ | .vlist _, .vint _
  | .vlist _, .vstr _ | .vlist _, .vdict _ =>
      isFalse (by intro hh; exact Value.noConfusion hh)

def fieldsDecEq : (a b : List (String × Value)) → Decidable (a = b)
  | [], [] => isTrue rfl
  | [], _ :: _ => isFalse (by intro hh; exact List.noConfusion hh)
  | _ :: _, [] => isFalse (by intro hh; exact List.noConfusion hh)
  | (k1, v1) :: r1, (k2, v2) :: r2 =>
      if hk : k1 = k2 then
        match valueDecEq v1 v2 with
        | isTrue hv =>
            match fieldsDecEq r1 r2 with
            | isTrue hr => isTrue (by rw [hk, hv, hr])
            | isFalse hr => isFalse (by
                intro hh; injection hh with h1 h2; exact hr h2)
        | isFalse hv => isFalse (by
            intro hh; injection hh with h1 h2
            injection h1 with ha hb; exact hv hb)
      else
        isFalse (by
          intro hh; injection hh with h1 h2
          injection h1 with ha hb; exact hk ha)

def elemsDecEq : (a b : List Value) → Decidable (a = b)
  | [], [] => isTrue rfl
  | [], _ :: _ => isFalse (by intro hh; exact List.noConfusion hh)
  | _ :: _, [] => isFalse (by intro hh; exact List.noConfusion hh)
  | v1 :: r1, v2 :: r2 =>
      match valueDecEq v1 v2 with
      | isTrue hv =>
          match elemsDecEq r1 r2 with
          | isTrue hr => isTrue (by rw [hv, hr])
          | isFalse hr => isFalse (by intro hh; injection hh with h1 h2; exact hr h2)
      | isFalse hv => isFalse (by intro hh; injection hh with h1 h2; exact hv h1)

end

instance : DecidableEq Value := valueDecEq

/-- Python `d[k]` / `k in d` lookup on an insertion-ordered dict. -/
def dlookup {A : Type} : List (String × A) → String → Option A
  | [], _ => none
  | (k, v) :: rest, key => if k = key then some v else dlookup rest key

/-- Python `d[k] = v`: replaces in place if the key exists (keeping its
position), otherwise appends. -/
def dictSet {A : Type} : List (String × A) → String → A → List (String × A)
  | [], k, v => [(k, v)]
  | (k2, v2) :: rest, k, v =>
      if k2 = k then (k, v) :: rest else (k2, v2) :: dictSet rest k v

/-- Whether a value is a dict or a list (Python `isinstance(v, (dict, list))`). -/
def isContainer : Value → Bool
  | .vdict _ => true
  | .vlist _ => true
  | _ => false

mutual
/-- Well-formedness of an embedded Python value: every mapping in it has
pairwise-distinct keys, which every real Python dict guarantees. -/
def wfValue : Value → Bool
  | .vdict fs => decide ((fs.map Prod.fst).Nodup) && wfFields fs
  | .vlist xs => wfList xs
  | _ => true

def wfFields : List (String × Value) → Bool
  | [] => true
  | p :: rest => wfValue p.2 && wfFields rest

def wfList : List Value → Bool
  | [] => true
  | v :: rest => wfValue v && wfList rest
end

/-- A change set as produced by `Storage.revision_generate`.  In Python the
result is a plain dict: either the two-key terminal replacement
`dict(old = o, new = n)` (where a missing side is stored as `None`, exactly as
the code stores `None`), or a dict from child key / stringified index to a
nested change set. -/
inductive Change where
  | repl : Value → Value → Change
  | nested : List (String × Change) → Change

mutual

def changeDecEq : (a b : Change) → Decidable (a = b)
  | .repl o1 n1, .repl o2 n2 =>
      if h1 : o1 = o2 then
        if h2 : n1 = n2 then isTrue (by rw [h1, h2])
        else isFalse (by intro hh; injection hh; contradiction)
      else isFalse (by intro hh; injection hh; contradiction)
  | .nested xs, .nested ys =>
      match centriesDecEq xs ys with
      | isTrue h => isTrue (by rw [h])
      | isFalse h => isFalse (by intro hh; injection hh; contradiction)
  | .repl _ _, .nested _ => isFalse (by intro hh; exact Change.noConfusion hh)
  | .nested _, .repl _ _ => isFalse (by intro hh; exact Change.noConfusion hh)

def centriesDecEq : (a b : List (String × Change)) → Decidable (a = b)
  | [], [] => isTrue rfl
  | [], _ :: _ => isFalse (by intro hh; exact List.noConfusion hh)
  | _ :: _, [] => isFalse (by intro hh; exact List.noConfusion hh)
  | (k1, c1) :: r1, (k2, c2) :: r2 =>
      if hk : k1 = k2 then
        match changeDecEq c1 c2 with
        | isTrue hc =>
            match centriesDecEq r1 r2 with
            | isTrue hr => isTrue (by rw [hk, hc, hr])
            | isFalse hr => isFalse (by
                intro hh; injection hh with h1 h2; exact hr h2)
        | isFalse hc => isFalse (by
            intro hh; injection hh with h1 h2
            injection h1 with ha hb; exact hc hb)
      else
        isFalse (by
          intro hh; injection hh with h1 h2
          injection h1 with ha hb; exact hk ha)

end

instance : DecidableEq Change := changeDecEq

/-- The Python exceptions that the embedded operations can raise. -/
inductive PyErr where
  | keyError : String → PyErr
  | valueError : Value → PyErr
  | valueErrorPair : String → String → PyErr
  | typeError : String → PyErr
  | attributeError : String → PyErr
deriving DecidableEq

/-- Entries added by the trailing loop of the list branch
(`for i in range(iOldLen, iNewLen): dRet[str(i)] = dict(old = None, new = new[i])`,
src/record/storage.py lines 273-275). -/
def listExtra : Nat → List Value → List (String × Change)
  | _, [] => []
  | i, v :: rest => (toString i, Change.repl .vnull v) :: listExtra (i + 1) rest

/-- Python `new[k]` for each key left in `lNewKeys`
(src/record/storage.py lines 230-232); a missing key raises `KeyError`
(unreachable for real dict inputs, since the leftover keys come from `new`). -/
def leftoverEntries (nd : List (String × Value)) :
    List String → Except PyErr (List (String × Change))
  | [] => Except.ok []
  | k :: rest =>
      match dlookup nd k with
      | none => Except.error (PyErr.keyError k)
      | some v => do
          let es ← leftoverEntries nd rest
          Except.ok ((k, Change.repl .vnull v) :: es)

/-- The loop `for k in old` of the dict branch (src/record/storage.py lines
213-227).  When a key exists in both mappings, line 222 executes
`dTemp = cls.generate_changes(old[k], new[k])`: no class in the repository
defines an attribute named `generate_changes` (the method itself is
`revision_generate`, and `define.Tree` is the external schema validator), so
the attribute lookup raises `AttributeError` and neither the recursion nor the
`lNewKeys.remove(k)` of line 223 is ever reached.  `lNewKeys` is therefore
passed through unchanged. -/
def dictLoop (oldd : List (String × Value)) (newd : List (String × Value))
    (lNewKeys : List String) :
    Except PyErr (List (String × Change) × List String) :=
  match oldd with
  | [] => Except.ok ([], lNewKeys)
  | (k, ov) :: rest =>
      match dlookup newd k with
      | none => do
          -- line 217: key missing from new
          let pair ← dictLoop rest newd lNewKeys
          Except.ok (((k, Change.repl ov .vnull) :: pair.1, pair.2))
      | some _ =>
          -- line 222: `cls.generate_changes` is defined nowhere
          Except.error (PyErr.attributeError "generate_changes")

/-- The loop `for i in range(iOldLen)` of the list branch
(src/record/storage.py lines 259-270).  When the index exists in both lists,
line 267 executes `dTemp = cls.generate_changes(old[i], new[i])` and raises
`AttributeError` for the same reason as the dict branch. -/
def listLoop (i : Nat) (oldl newl : List Value) :
    Except PyErr (List (String × Change)) :=
  match oldl, newl with
  | [], _ => Except.ok []
  | ov :: rest, [] => do
      -- lines 262-263: index past the end of new
      let es ← listLoop (i + 1) rest []
      Except.ok ((toString i, Change.repl ov .vnull) :: es)
  | _ :: _, _ :: _ =>
      -- line 267: `cls.generate_changes` is defined nowhere
      Except.error (PyErr.attributeError "generate_changes")

/-- Shallow embedding of `Storage.revision_generate`
(src/record/storage.py lines 178-294).  The method recurses through
`cls.generate_changes` (lines 222 and 267), an attribute no class defines —
the method itself was named `revision_generate` — so every input that reaches
a recursive comparison raises `AttributeError`.  `Except.error` marks a raised
Python exception; `Except.ok none` is the `return None` "no change" result. -/
def revision_generate (old new : Value) : Except PyErr (Option Change) :=
  match old, new with
  | .vdict oldd, .vdict newd => do
      -- lines 202-242: both are dicts
      let pair ← dictLoop oldd newd (newd.map Prod.fst)
      let extra ← leftoverEntries newd pair.2
      let dRet := pair.1 ++ extra
      -- line 236: `iOldLen > iNewLen and iOldLen or iNewLen`, i.e. max
      let iMaxKeys := max oldd.length newd.length
      if dRet.length ≥ iMaxKeys then
        Except.ok (some (Change.repl (.vdict oldd) (.vdict newd)))
      else if dRet.isEmpty then Except.ok none
      else Except.ok (some (Change.nested dRet))
  | .vdict oldd, n => Except.ok (some (Change.repl (.vdict oldd) n))
  | .vlist oldl, .vlist newl => do
      -- lines 245-284: both are lists
      let es ← listLoop 0 oldl newl
      let dRet := es ++ listExtra oldl.length (newl.drop oldl.length)
      let iMaxKeys := max oldl.length newl.length
      if dRet.length ≥ iMaxKeys then
        Except.ok (some (Change.repl (.vlist oldl) (.vlist newl)))
      else if dRet.isEmpty then Except.ok none
      else Except.ok (some (Change.nested dRet))
  | .vlist oldl, n => Except.ok (some (Change.repl (.vlist oldl) n))
  | o, n =>
      -- lines 287-294: `old` is a single value; no recursion is involved
      if isContainer n || o ≠ n then Except.ok (some (Change.repl o n))
      else Except.ok none

deriving instance DecidableEq for Except

mutual

/-- Python `==` as `field_set`'s no-op check uses it
(`value == self._value[field]`, src/record/data.py line 345): structural on
scalars, element-wise on lists, and key-set based (insertion order ignored) on
dicts.  Numeric cross-type equalities such as `True == 1` are not modelled. -/
def pyEq : Value → Value → Bool
  | .vnull, .vnull => true
  | .vbool a, .vbool b => a = b
  | .vint a, .vint b => a = b
  | .vstr a, .vstr b => a = b
  | .vdict d1, .vdict d2 =>
      d2.all (fun q => (dlookup d1 q.1).isSome) && pyEqFields d1 d2
  | .vlist l1, .vlist l2 => pyEqList l1 l2
  | _, _ => false

def pyEqFields : List (String × Value) → List (String × Value) → Bool
  | [], _ => true
  | p :: rest, d2 =>
      (match dlookup d2 p.1 with
       | some w => pyEq p.2 w
       | none => false) && pyEqFields rest d2

def pyEqList : List Value → List Value → Bool
  | [], [] => true
  | a :: r1, b :: r2 => pyEq a b && pyEqList r1 r2
  | _, _ => false

end

/-- Structural induction principle for `Value` that hands the inductive
hypothesis to every member of a dict or list. -/
def value_ind (P : Value → Prop) (h0 : P .vnull) (h1 : ∀ b, P (.vbool b))
    (h2 : ∀ n, P (.vint n)) (h3 : ∀ s, P (.vstr s))
    (h4 : ∀ fs, (∀ p ∈ fs, P p.2) → P (.vdict fs))
    (h5 : ∀ xs, (∀ x ∈ xs, P x) → P (.vlist xs)) : ∀ v, P v
  | .vnull => h0
  | .vbool b => h1 b
  | .vint n => h2 n
  | .vstr s => h3 s
  | .vdict fs => h4 fs (fun p hp => value_ind P h0 h1 h2 h3 h4 h5 p.2)
  | .vlist xs => h5 xs (fun x hx => value_ind P h0 h1 h2 h3 h4 h5 x)
termination_by v => sizeOf v
decreasing_by
  · have hlt := List.sizeOf_lt_of_mem hp
    cases p
    simp only [Value.vdict.sizeOf_spec, Prod.mk.sizeOf_spec] at *
    omega
  · have hlt := List.sizeOf_lt_of_mem hx
    simp only [Value.vlist.sizeOf_spec]
    omega

/-- The schema collaborator (`define.Tree`) as `Data` uses it: field
membership (`field in self._storage`), per-field validation
(`self._storage[field].valid(value, [field])`) with its structured failure
detail (`validation_failures`), per-field cleaning
(`self._storage[field].clean(value)`), and the `changes` configuration flag
(`self._storage.changes`). -/
structure Schema where
  fields : List String
  valid : String → Value → Bool
  failures : String → Value → Value
  clean : String → Value → Value
  changes : Bool

/-- The runtime representation of `self._changed`.  `Data.__init__`
(src/record/data.py line 44) creates it as the Python list `[]`; every other
use (`self._changed[field] = True` on lines 316 and 366, `self._changed.keys()`
on line 240) treats it as a dict from field name to `True`. -/
inductive ChangedRepr where
  | pylist : List Value → ChangedRepr
  | pydict : List (String × Bool) → ChangedRepr
deriving DecidableEq

/-- The `self._old_value` attribute.  `Data.__init__` never creates it, so on a
fresh proxy it is `absent` and reading it raises `AttributeError`. -/
inductive OldSnapshot where
  | absent : OldSnapshot
  | held : Option (List (String × Value)) → OldSnapshot
deriving DecidableEq

/-- The mutable state of a `Data` proxy: the Record Value `self._value`, the
change tracker `self._changed`, and the snapshot attribute `self._old_value`. -/
structure DataState where
  value : List (String × Value)
  changed : ChangedRepr
  old_value : OldSnapshot
deriving DecidableEq

/-- The state `Data.__init__` (src/record/data.py lines 28-44) sets up:
`self._value = value`, `self._changed = []`, and no `_old_value` attribute. -/
def initData (v : List (String × Value)) : DataState :=
  { value := v, changed := ChangedRepr.pylist [], old_value := OldSnapshot.absent }

/-- Lines 352-355 of src/record/data.py: `if self._storage.changes: if
self._old_value is None: self._old_value = deepcopy(self._value)`.  Values are
pure here, so `deepcopy` is capture of the current value.  Reading the
never-initialised `_old_value` attribute of a fresh proxy raises
`AttributeError`. -/
def snapshotStep (sch : Schema) (st : DataState) :
    Except (PyErr × DataState) DataState :=
  if sch.changes then
    match st.old_value with
    | .absent => Except.error (PyErr.attributeError "_old_value", st)
    | .held none => Except.ok { st with old_value := OldSnapshot.held (some st.value) }
    | .held (some _) => Except.ok st
  else Except.ok st

/-- Line 366 of src/record/data.py: `self._changed[field] = True`.  When
`self._changed` is still the list `[]` from `__init__`, indexing it with a
string key raises `TypeError`; the dict arm is what the assignment assumes. -/
def markChanged (st : DataState) (field : String) :
    Except (PyErr × DataState) DataState :=
  match st.changed with
  | .pylist _ =>
      Except.error
        (PyErr.typeError "list indices must be integers or slices, not str", st)
  | .pydict m =>
      Except.ok { st with changed := ChangedRepr.pydict (dictSet m field true) }

/-- Shallow embedding of `Data.field_set` (src/record/data.py lines 321-369).
An `Except.error` carries the raised exception together with the proxy state
at the moment of the raise (Python does not roll back earlier mutations). -/
def field_set (sch : Schema) (st : DataState) (field : String) (v : Value) :
    Except (PyErr × DataState) DataState :=
  -- line 341: `if field not in self._storage: raise KeyError(field)`
  if field ∉ sch.fields then Except.error (PyErr.keyError field, st)
  -- line 345: `if field in self._value and value == self._value[field]: return self`
  else if (match dlookup st.value field with
           | some cur => pyEq v cur
           | none => false) = true then Except.ok st
  -- line 349: `if not self._storage[field].valid(value, [field]): raise ValueError(...)`
  else if sch.valid field v = false then
    Except.error (PyErr.valueError (sch.failures field v), st)
  else do
    let st1 ← snapshotStep sch st
    -- lines 357-363: store `None` verbatim, anything else after cleaning
    let stored := if v = Value.vnull then Value.vnull else sch.clean field v
    let st2 : DataState := { st1 with value := dictSet st1.value field stored }
    markChanged st2 field

/-- A heap value for the aliasing model of `Data.value`: a scalar or a
reference to a dict object on the heap. -/
inductive HVal where
  | hnull : HVal
  | hbool : Bool → HVal
  | hint : Int → HVal
  | hstr : String → HVal
  | href : Nat → HVal
deriving DecidableEq

/-- A heap dict object: ordered entries whose values may reference other
objects. -/
abbrev HObj := List (String × HVal)

/-- The heap: object `r` lives at index `r`. -/
abbrev Store := List HObj

def getObj (st : Store) (r : Nat) : HObj := st.getD r []

def setObj (st : Store) (r : Nat) (o : HObj) : Store := st.set r o

/-- `Data.value` (src/record/data.py line 423): `return copy(self._value)`.
`copy.copy` of a dict allocates a new dict whose entries reference the same
nested objects, so the fresh object at index `st.length` shares every `href`
with the original at `r`. -/
def value_prop (st : Store) (r : Nat) : Store × Nat :=
  (st ++ [getObj st r], st.length)

/-- Dereference a heap value into a pure `Value` (fuel bounds the depth). -/
def readHVal (st : Store) : Nat → HVal → Value
  | _, .hnull => .vnull
  | _, .hbool b => .vbool b
  | _, .hint n => .vint n
  | _, .hstr s => .vstr s
  | 0, .href _ => .vnull
  | fuel + 1, .href r =>
      .vdict ((getObj st r).map (fun p => (p.1, readHVal st fuel p.2)))

/-- A heap value only references objects below `n`. -/
def refBelow (n : Nat) : HVal → Bool
  | .href r => decide (r < n)
  | _ => true

def objRefsBelow (n : Nat) (o : HObj) : Bool := o.all (fun p => refBelow n p.2)

/-- Every object of the store only references objects inside the store. -/
def wfStore (st : Store) : Bool := st.all (objRefsBelow st.length)

/-- Shallow embedding of `Cache.factory` (src/record/cache.py lines 49-75):
`dConf = conf[conf['implementation']]`, then
`return cls.__implementations[conf['implementation']](dConf)` inside a
`try/except KeyError` that reports `ValueError(name, 'not registered')`.
Registered constructors are total functions here; the model only covers string
implementation names (Python would use the raw value as a dict key). -/
def factory {A : Type} (impls : List (String × (Value → A)))
    (conf : List (String × Value)) : Except PyErr A :=
  match dlookup conf "implementation" with
  | none => Except.error (PyErr.keyError "implementation")
  | some impl =>
      match impl with
      | .vstr name =>
          match dlookup conf name with
          | none => Except.error (PyErr.keyError name)
          | some dConf =>
              match dlookup impls name with
              | none => Except.error (PyErr.valueErrorPair name "not registered")
              | some ctor => Except.ok (ctor dConf)
      | _ => Except.error (PyErr.typeError "implementation name is not modelled")

/-- Shallow embedding of `Cache.register` (src/record/cache.py lines 101-124):
raises `ValueError` when the name is taken, else stores the constructor. -/
def register {A : Type} (impls : List (String × A)) (name : String) (ctor : A) :
    Except PyErr (List (String × A)) :=
  if (dlookup impls name).isSome then
    Except.error (PyErr.valueErrorPair name "already registered")
  else Except.ok (impls ++ [(name, ctor)])

/-- Test fixture: a schema with the single declared field `a` that accepts
every value, cleans values to themselves, and has revision tracking off. -/
def schemaA : Schema :=
  { fields := ["a"]
    valid := fun _ _ => true
    failures := fun _ _ => Value.vstr "invalid"
    clean := fun _ v => v
    changes := false }

/-- Test fixture: `schemaA` with revision tracking on. -/
def schemaARev : Schema := { schemaA with changes := true }

/-- Test fixture: `schemaA` with a validator that rejects every value. -/
def schemaARej : Schema := { schemaA with valid := fun _ _ => false }

/-- Test fixture: a schema declaring only the field `x`. -/
def schemaX : Schema := { schemaA with fields := ["x"] }

/-- Test fixture: a proxy state holding `a = 1` (fresh `_changed`/`_old_value`,
as `__init__` leaves them). -/
def stateA1 : DataState :=
  { value := [("a", Value.vint 1)]
    changed := ChangedRepr.pylist []
    old_value := OldSnapshot.absent }

/-- Test fixture: a proxy state holding `g = 1`. -/
def stateG1 : DataState :=
  { value := [("g", Value.vint 1)]
    changed := ChangedRepr.pylist []
    old_value := OldSnapshot.absent }

/-- Test fixture: a proxy state holding `h = 2`. -/
def stateH2 : DataState :=
  { value := [("h", Value.vint 2)]
    changed := ChangedRepr.pylist []
    old_value := OldSnapshot.absent }


theorem dlookup_of_mem_nodup {A : Type} {l : List (String × A)} {k : String} {v : A}
    (hnd : (l.map Prod.fst).Nodup) (h : (k, v) ∈ l) : dlookup l k = some v := by
  induction l with
  | nil => simp at h
  | cons p rest ih =>
      obtain ⟨k2, v2⟩ := p
      simp only [List.map_cons, List.nodup_cons] at hnd
      rcases List.mem_cons.mp h with heq | hmem
      · injection heq with h1 h2
        subst h1; subst h2
        simp [dlookup]
      · have hk : k2 ≠ k := by
          intro hkk
          refine hnd.1 ?_
          rw [hkk]
          exact List.mem_map.mpr ⟨(k, v), hmem, rfl⟩
        simp [dlookup, hk]
        exact ih hnd.2 hmem

theorem dlookup_isSome_of_mem_keys {A : Type} {l : List (String × A)} {k : String}
    (h : k ∈ l.map Prod.fst) : (dlookup l k).isSome = true := by
  induction l with
  | nil => simp at h
  | cons p rest ih =>
      obtain ⟨k2, v2⟩ := p
      by_cases hk : k2 = k
      · simp [dlookup, hk]
      · simp only [List.map_cons, List.mem_cons] at h
        rcases h with h | h
        · exact absurd h.symm hk
        · simp [dlookup, hk]
          exact ih h

theorem wfFields_iff (fs : List (String × Value)) :
    wfFields fs = true ↔ ∀ p ∈ fs, wfValue p.2 = true := by
  induction fs with
  | nil => simp [wfFields]
  | cons p rest ih => simp [wfFields, Bool.and_eq_true, ih]

theorem wfList_iff (xs : List Value) :
    wfList xs = true ↔ ∀ x ∈ xs, wfValue x = true := by
  induction xs with
  | nil => simp [wfList]
  | cons x rest ih => simp [wfList, Bool.and_eq_true, ih]

theorem pyEqFields_self_aux (fs : List (String × Value)) :
    ∀ sub : List (String × Value),
      (∀ p ∈ sub, dlookup fs p.1 = some p.2) →
      (∀ p ∈ sub, pyEq p.2 p.2 = true) →
      pyEqFields sub fs = true := by
  intro sub
  induction sub with
  | nil => intro _ _; simp [pyEqFields]
  | cons p rest ih =>
      intro h1 h2
      simp only [pyEqFields, Bool.and_eq_true]
      constructor
      · rw [h1 p (List.mem_cons_self _ _)]
        exact h2 p (List.mem_cons_self _ _)
      · exact ih (fun q hq => h1 q (List.mem_cons_of_mem _ hq))
          (fun q hq => h2 q (List.mem_cons_of_mem _ hq))

theorem pyEqList_self_aux (xs : List Value) (h : ∀ x ∈ xs, pyEq x x = true) :
    pyEqList xs xs = true := by
  induction xs with
  | nil => simp [pyEqList]
  | cons x rest ih =>
      simp only [pyEqList, Bool.and_eq_true]
      exact ⟨h x (List.mem_cons_self _ _),
        ih (fun y hy => h y (List.mem_cons_of_mem _ hy))⟩

theorem pyEq_refl : ∀ v : Value, wfValue v = true → pyEq v v = true := by
  intro v
  induction v using value_ind with
  | h0 => intro _; simp [pyEq]
  | h1 b => intro _; simp [pyEq]
  | h2 n => intro _; simp [pyEq]
  | h3 s => intro _; simp [pyEq]
  | h4 fs ih =>
      intro hwf
      simp only [wfValue, Bool.and_eq_true, decide_eq_true_eq] at hwf
      obtain ⟨hnd, hfs⟩ := hwf
      have hall := (wfFields_iff fs).mp hfs
      simp only [pyEq, Bool.and_eq_true]
      constructor
      · rw [List.all_eq_true]
        intro q hq
        exact dlookup_isSome_of_mem_keys (List.mem_map.mpr ⟨q, hq, rfl⟩)
      · exact pyEqFields_self_aux fs fs
          (fun p hp => dlookup_of_mem_nodup hnd hp)
          (fun p hp => ih p hp (hall p hp))
  | h5 xs ih =>
      intro hwf
      simp only [wfValue] at hwf
      have hall := (wfList_iff xs).mp hwf
      simp only [pyEq]
      exact pyEqList_self_aux xs (fun x hx => ih x hx (hall x hx))

/-- Claim C1 (corrected): `generate_changes(X, X)` (`Storage.revision_generate`)
returns "no change" (`None`) exactly for scalar `X`.  The empty mapping and the
empty sequence instead produce the terminal replacement (see the
counterexample), and every nonempty mapping or sequence raises
`AttributeError`, because the recursive call sites reference the undefined
`cls.generate_changes`. -/
theorem C1_generate_changes_identity :
    (∀ v : Value, isContainer v = false →
        revision_generate v v = Except.ok none) ∧
      (∀ fs : List (String × Value), fs ≠ [] →
        revision_generate (Value.vdict fs) (Value.vdict fs)
          = Except.error (PyErr.attributeError "generate_changes")) ∧
      (∀ xs : List Value, xs ≠ [] →
        revision_generate (Value.vlist xs) (Value.vlist xs)
          = Except.error (PyErr.attributeError "generate_changes")) := by
  refine ⟨?_, ?_, ?_⟩
  · intro v h
    cases v with
    | vnull => rfl
    | vbool b => simp [revision_generate, isContainer]
    | vint n => simp [revision_generate, isContainer]
    | vstr s => simp [revision_generate, isContainer]
    | vdict fs => simp [isContainer] at h
    | vlist xs => simp [isContainer] at h
  · intro fs hne
    cases fs with
    | nil => exact absurd rfl hne
    | cons p rest =>
        obtain ⟨k, ov⟩ := p
        simp [revision_generate, dictLoop, dlookup, bind, Except.bind]
  · intro xs hne
    cases xs with
    | nil => exact absurd rfl hne
    | cons x rest => simp [revision_generate, listLoop, bind, Except.bind]

/-- Witness for C1: a scalar identity diff returns "no change"; a one-key
mapping and a one-element sequence diffed against themselves raise
`AttributeError`. -/
theorem C1_generate_changes_identity_witness :
    isContainer (Value.vint 3) = false ∧
      revision_generate (Value.vint 3) (Value.vint 3) = Except.ok none ∧
      revision_generate (Value.vdict [("a", Value.vint 1)])
          (Value.vdict [("a", Value.vint 1)])
        = Except.error (PyErr.attributeError "generate_changes") ∧
      revision_generate (Value.vlist [Value.vint 1]) (Value.vlist [Value.vint 1])
        = Except.error (PyErr.attributeError "generate_changes") :=
  ⟨by decide,
    C1_generate_changes_identity.1 (Value.vint 3) (by decide),
    C1_generate_changes_identity.2.1 [("a", Value.vint 1)] (by decide),
    C1_generate_changes_identity.2.2 [Value.vint 1] (by decide)⟩

/-- Counterexample for C1 as stated: on the empty mapping (and empty sequence)
`revision_generate` returns the terminal replacement, not "no change", because
the collapse check `len(dRet.keys()) >= iMaxKeys` reads `0 >= 0`. -/
theorem C1_empty_mapping_identity_fails :
    revision_generate (Value.vdict []) (Value.vdict [])
        = Except.ok (some (Change.repl (Value.vdict []) (Value.vdict []))) ∧
      ¬ (revision_generate (Value.vdict []) (Value.vdict [])
          = Except.ok none) ∧
      ¬ (revision_generate (Value.vlist []) (Value.vlist [])
          = Except.ok none) := by
  decide

/-- Claim C2 (code_bug): both of the claim's example calls crash instead of
producing the claimed results: as soon as a key exists in both mappings,
line 222 of src/record/storage.py evaluates the undefined
`cls.generate_changes` and raises `AttributeError`.  The collapse threshold of
lines 234-238 is real code, but in the crash-free fragment — mappings sharing
no key — the collected entry count always reaches it, so the third conjunct
shows such a pair collapsing to the terminal replacement. -/
theorem C2_dict_collapse_crashes :
    revision_generate
        (Value.vdict [("a", Value.vint 1), ("b", Value.vint 2)])
        (Value.vdict [("a", Value.vint 9), ("b", Value.vint 8)])
        = Except.error (PyErr.attributeError "generate_changes") ∧
      revision_generate
        (Value.vdict [("a", Value.vint 1), ("b", Value.vint 2),
          ("c", Value.vint 3)])
        (Value.vdict [("a", Value.vint 9), ("b", Value.vint 2),
          ("c", Value.vint 3)])
        = Except.error (PyErr.attributeError "generate_changes") ∧
      revision_generate (Value.vdict [("a", Value.vint 1)])
          (Value.vdict [("b", Value.vint 2)])
        = Except.ok (some (Change.repl (Value.vdict [("a", Value.vint 1)])
            (Value.vdict [("b", Value.vint 2)]))) := by
  decide

/-- Claim C3 (code_bug): the generator is not total: any input pair that
reaches a recursive comparison — two mappings sharing a key, or two nonempty
sequences — raises `AttributeError`, because lines 222 and 267 of
src/record/storage.py reference `cls.generate_changes`, which no class
defines.  The non-recursive fragment behaves as claimed: equal scalars return
"no change" rather than raising, and mismatched container categories return
the terminal replacement. -/
theorem C3_recursive_inputs_raise :
    revision_generate (Value.vdict [("n", Value.vint 5)])
        (Value.vdict [("n", Value.vint 6)])
        = Except.error (PyErr.attributeError "generate_changes") ∧
      revision_generate (Value.vlist [Value.vbool true])
          (Value.vlist [Value.vbool false])
        = Except.error (PyErr.attributeError "generate_changes") ∧
      revision_generate (Value.vint 7) (Value.vint 7) = Except.ok none ∧
      revision_generate (Value.vdict [("n", Value.vint 5)]) (Value.vint 7)
        = Except.ok (some (Change.repl (Value.vdict [("n", Value.vint 5)])
            (Value.vint 7))) := by
  decide

/-- Claim C4 (code_bug): the claim's example calls crash: diffing `[1,2,3]`
against `[1,2]` (or `[1]` against `[1,2]`) compares index 0 of both lists and
line 267 of src/record/storage.py raises `AttributeError` on the undefined
`cls.generate_changes`.  Even the crash-free truncation `[3]` vs `[]` does not
produce the claimed per-index entry: its single removal entry meets the
collapse threshold, so the whole list is returned as a terminal replacement. -/
theorem C4_sequence_examples_crash :
    revision_generate
        (Value.vlist [Value.vint 1, Value.vint 2, Value.vint 3])
        (Value.vlist [Value.vint 1, Value.vint 2])
        = Except.error (PyErr.attributeError "generate_changes") ∧
      revision_generate (Value.vlist [Value.vint 1])
          (Value.vlist [Value.vint 1, Value.vint 2])
        = Except.error (PyErr.attributeError "generate_changes") ∧
      revision_generate (Value.vlist [Value.vint 3]) (Value.vlist [])
        = Except.ok (some (Change.repl (Value.vlist [Value.vint 3])
            (Value.vlist []))) := by
  decide

/-- Claim C5 (corrected): `field_set` on an undeclared field raises `KeyError`,
and on a declared field with a schema-rejected value raises `ValueError`
carrying the schema's failure detail — provided the rejected value is not
`==`-equal to the field's current stored value, since the identical-value
short-circuit precedes validation (see the counterexample).  In both failure
cases the raised error carries the state unchanged. -/
theorem C5_field_set_error_cases :
    (∀ (sch : Schema) (st : DataState) (f : String) (v : Value),
        f ∉ sch.fields →
        field_set sch st f v = Except.error (PyErr.keyError f, st)) ∧
      (∀ (sch : Schema) (st : DataState) (f : String) (v : Value),
        f ∈ sch.fields →
        (∀ cur : Value, dlookup st.value f = some cur → pyEq v cur = false) →
        sch.valid f v = false →
        field_set sch st f v
          = Except.error (PyErr.valueError (sch.failures f v), st)) := by
  constructor
  · intro sch st f v h
    simp [field_set, h]
  · intro sch st f v hf hcur hvalid
    have hm : (match dlookup st.value f with
        | some cur => pyEq v cur
        | none => false) = false := by
      cases hdl : dlookup st.value f with
      | none => rfl
      | some cur => exact hcur cur hdl
    simp [field_set, hf, hm, hvalid]

/-- Witness for C5: the unknown field `ghost` raises `KeyError`, and a rejected
fresh value raises `ValueError`, both leaving the state untouched. -/
theorem C5_field_set_error_cases_witness :
    field_set schemaA stateA1 "ghost" (Value.vint 5)
        = Except.error (PyErr.keyError "ghost", stateA1) ∧
      field_set schemaARej stateA1 "a" (Value.vint 5)
        = Except.error (PyErr.valueError (Value.vstr "invalid"), stateA1) :=
  ⟨C5_field_set_error_cases.1 schemaA stateA1 "ghost" (Value.vint 5) (by decide),
    C5_field_set_error_cases.2 schemaARej stateA1 "a" (Value.vint 5) (by decide)
      (by decide) (by decide)⟩

/-- Counterexample for C5 as stated: a schema-rejected value that is `==`-equal
to the field's current stored value does not raise `InvalidValue`; the
identical-value short-circuit returns success first. -/
theorem C5_rejected_identical_value_no_error :
    field_set schemaARej stateA1 "a" (Value.vint 1) = Except.ok stateA1 ∧
      ¬ (field_set schemaARej stateA1 "a" (Value.vint 1)
          = Except.error (PyErr.valueError (Value.vstr "invalid"), stateA1)) := by
  decide

/-- Claim C6 (code_bug): the successful-validation path of `field_set` cannot
complete on a proxy as `__init__` builds it.  With revision tracking off the
value is stored and then `self._changed['a'] = True` raises `TypeError`
(`_changed` is the list `[]` from `__init__`); with revision tracking on,
reading the never-initialised `_old_value` raises `AttributeError` first.
The third conjunct shows the claimed postconditions (store cleaned value, mark
field changed, capture snapshot) do hold once `_changed` is a dict and
`_old_value` is `None`, which is what every other use of those attributes
assumes. -/
theorem C6_field_set_success_path_crashes :
    field_set schemaA (initData []) "a" (Value.vint 1)
        = Except.error
            (PyErr.typeError "list indices must be integers or slices, not str",
              { value := [("a", Value.vint 1)]
                changed := ChangedRepr.pylist []
                old_value := OldSnapshot.absent }) ∧
      field_set schemaARev (initData []) "a" (Value.vint 1)
        = Except.error (PyErr.attributeError "_old_value", initData []) ∧
      field_set schemaARev
          { value := []
            changed := ChangedRepr.pydict []
            old_value := OldSnapshot.held none } "a" (Value.vint 1)
        = Except.ok
            { value := [("a", Value.vint 1)]
              changed := ChangedRepr.pydict [("a", true)]
              old_value := OldSnapshot.held (some []) } := by
  decide

/-- Claim C7 (corrected): setting a field that the schema declares to its
current stored value is a no-op returning the state unchanged; the
declaredness precondition is forced by the counterexample, where the same call
on an undeclared field raises `KeyError` instead of returning. -/
theorem C7_identical_value_noop (sch : Schema) (st : DataState) (f : String)
    (v : Value) (hf : f ∈ sch.fields) (hcur : dlookup st.value f = some v)
    (hwf : wfValue v = true) :
    field_set sch st f v = Except.ok st := by
  have hm : (match dlookup st.value f with
      | some cur => pyEq v cur
      | none => false) = true := by
    rw [hcur]
    exact pyEq_refl v hwf
  simp [field_set, hf, hm]

/-- Witness for C7: re-setting `a = 1` on a proxy already holding `a = 1`
returns the state unchanged. -/
theorem C7_identical_value_noop_witness :
    field_set schemaA stateA1 "a" (Value.vint 1) = Except.ok stateA1 :=
  C7_identical_value_noop schemaA stateA1 "a" (Value.vint 1) (by decide)
    (by decide) (by decide)

/-- Counterexample for C7 as stated: `g` is present in the Record Value but not
declared in the schema, so re-setting its current value raises `KeyError`
rather than being a returning no-op. -/
theorem C7_unknown_field_not_noop :
    field_set schemaX stateG1 "g" (Value.vint 1)
        = Except.error (PyErr.keyError "g", stateG1) ∧
      ¬ (field_set schemaX stateG1 "g" (Value.vint 1) = Except.ok stateG1) := by
  decide

/-- Claim C8 (corrected): re-setting a declared field to its current stored
value succeeds without consulting the validator: the theorem holds for every
schema whose validator rejects all values, so no `InvalidValue` can arise.
The declaredness precondition is forced by the counterexample, where the call
raises `KeyError` instead of returning successfully. -/
theorem C8_noop_skips_validation (sch : Schema) (st : DataState) (f : String)
    (v : Value) (hrej : ∀ (g : String) (w : Value), sch.valid g w = false)
    (hf : f ∈ sch.fields) (hcur : dlookup st.value f = some v)
    (hwf : wfValue v = true) :
    field_set sch st f v = Except.ok st := by
  have hm : (match dlookup st.value f with
      | some cur => pyEq v cur
      | none => false) = true := by
    rw [hcur]
    exact pyEq_refl v hwf
  simp [field_set, hf, hm]

/-- Witness for C8: with the all-rejecting schema, re-setting `a = 1` on a
proxy holding `a = 1` still succeeds. -/
theorem C8_noop_skips_validation_witness :
    field_set schemaARej stateA1 "a" (Value.vint 1) = Except.ok stateA1 :=
  C8_noop_skips_validation schemaARej stateA1 "a" (Value.vint 1)
    (fun _ _ => rfl) (by decide) (by decide) (by decide)

/-- Counterexample for C8 as stated: `h` is present in the Record Value but not
declared in the schema, so the identical-value call raises `KeyError` and does
not return successfully. -/
theorem C8_unknown_field_not_success :
    field_set schemaX stateH2 "h" (Value.vint 2)
        = Except.error (PyErr.keyError "h", stateH2) ∧
      ¬ (field_set schemaX stateH2 "h" (Value.vint 2) = Except.ok stateH2) := by
  decide

/-- Claim C10 (confirmed): `Cache.factory` with an unregistered implementation
name fails with `ValueError(name, 'not registered')`; with a registered name it
returns the registered constructor applied to `conf[conf['implementation']]`. -/
theorem C10_factory_registry {A : Type} (impls : List (String × (Value → A)))
    (conf : List (String × Value)) (name : String) (dConf : Value)
    (h1 : dlookup conf "implementation" = some (Value.vstr name))
    (h2 : dlookup conf name = some dConf) :
    (dlookup impls name = none →
      factory impls conf
        = Except.error (PyErr.valueErrorPair name "not registered")) ∧
    (∀ ctor : Value → A, dlookup impls name = some ctor →
      factory impls conf = Except.ok (ctor dConf)) := by
  constructor
  · intro h3
    simp [factory, h1, h2, h3]
  · intro ctor h3
    simp [factory, h1, h2, h3]

/-- Witness for C10: with an empty registry the `redis` configuration fails
with the not-registered `ValueError`; once a constructor is registered under
`redis`, the factory returns it applied to the `redis` sub-configuration. -/
theorem C10_factory_registry_witness :
    factory ([] : List (String × (Value → Value)))
        [("implementation", Value.vstr "redis"), ("redis", Value.vint 7)]
        = Except.error (PyErr.valueErrorPair "redis" "not registered") ∧
      factory [("redis", fun v => v)]
        [("implementation", Value.vstr "redis"), ("redis", Value.vint 7)]
        = Except.ok (Value.vint 7) :=
  ⟨(C10_factory_registry []
      [("implementation", Value.vstr "redis"), ("redis", Value.vint 7)]
      "redis" (Value.vint 7) (by decide) (by decide)).1 rfl,
    (C10_factory_registry [("redis", fun v => v)]
      [("implementation", Value.vstr "redis"), ("redis", Value.vint 7)]
      "redis" (Value.vint 7) (by decide) (by decide)).2 (fun v => v) rfl⟩

theorem getObj_append_lt (st : Store) (o : HObj) (i : Nat) (h : i < st.length) :
    getObj (st ++ [o]) i = getObj st i := by
  unfold getObj
  rw [List.getD_append _ _ _ _ h]

theorem getObj_append_self (st : Store) (o : HObj) :
    getObj (st ++ [o]) st.length = o := by
  unfold getObj
  rw [List.getD_append_right _ _ _ _ (Nat.le_refl _)]
  simp

theorem getObj_set_ne (st : Store) (r : Nat) (o : HObj) (i : Nat) (h : r ≠ i) :
    getObj (setObj st r o) i = getObj st i := by
  simp [getObj, setObj, List.getD, List.getElem?_set_ne h]

theorem wfStore_obj (st : Store) (hwf : wfStore st = true) (i : Nat)
    (h : i < st.length) : objRefsBelow st.length (getObj st i) = true := by
  have hg : getObj st i = st[i] := List.getD_eq_getElem st [] h
  rw [hg]
  have hmem := List.getElem_mem h
  simp only [wfStore, List.all_eq_true] at hwf
  exact hwf _ hmem

theorem readHVal_agree (n : Nat) (st1 st2 : Store)
    (hagree : ∀ i, i < n → getObj st1 i = getObj st2 i)
    (hwf : ∀ i, i < n → objRefsBelow n (getObj st1 i) = true) :
    ∀ (fuel : Nat) (hv : HVal), refBelow n hv = true →
      readHVal st1 fuel hv = readHVal st2 fuel hv := by
  intro fuel
  induction fuel with
  | zero => intro hv _; cases hv <;> rfl
  | succ fuel ih =>
      intro hv hb
      cases hv with
      | hnull => rfl
      | hbool b => rfl
      | hint m => rfl
      | hstr s => rfl
      | href r =>
          simp only [refBelow, decide_eq_true_eq] at hb
          have hobj := hagree r hb
          have hwfo := hwf r hb
          simp only [readHVal]
          rw [← hobj]
          congr 1
          apply List.map_congr_left
          intro p hp
          have hpb : refBelow n p.2 = true := by
            simp only [objRefsBelow, List.all_eq_true] at hwfo
            exact hwfo p hp
          rw [ih p.2 hpb]

/-- Claim C9 (corrected): `Data.value` returns a shallow copy.  Reading the
returned copy gives the same value as reading the internal Record Value, and
mutating the copy's own top-level dict never affects the internal value.  The
claim's stronger statement — that mutating nested mappings inside the copy also
never affects the proxy — is refuted by `C9_nested_mutation_leaks`, because
`copy(self._value)` shares every nested object. -/
theorem C9_value_shallow_copy (st : Store) (r : Nat) (k : String) (w : HVal)
    (fuel : Nat) (hr : r < st.length) (hwf : wfStore st = true) :
    readHVal (value_prop st r).1 fuel (HVal.href (value_prop st r).2)
        = readHVal (value_prop st r).1 fuel (HVal.href r) ∧
      readHVal (setObj (value_prop st r).1 (value_prop st r).2
          (dictSet (getObj st r) k w)) fuel (HVal.href r)
        = readHVal (value_prop st r).1 fuel (HVal.href r) := by
  constructor
  · cases fuel with
    | zero => rfl
    | succ fuel =>
        simp only [value_prop, readHVal]
        rw [getObj_append_self, getObj_append_lt st _ r hr]
  · refine readHVal_agree st.length _ _ ?_ ?_ fuel (HVal.href r) ?_
    · intro i hi
      simp only [value_prop]
      rw [getObj_set_ne _ _ _ _ (by omega)]
    · intro i hi
      simp only [value_prop]
      rw [getObj_set_ne _ _ _ _ (by omega), getObj_append_lt st _ i hi]
      exact wfStore_obj st hwf i hi
    · simp [refBelow, hr]

/-- Witness for C9 at a concrete two-object heap. -/
theorem C9_value_shallow_copy_witness :
    wfStore [[("b", HVal.hint 1)], [("a", HVal.href 0)]] = true ∧
      (readHVal (value_prop [[("b", HVal.hint 1)], [("a", HVal.href 0)]] 1).1 3
          (HVal.href (value_prop [[("b", HVal.hint 1)], [("a", HVal.href 0)]] 1).2)
        = readHVal (value_prop [[("b", HVal.hint 1)], [("a", HVal.href 0)]] 1).1 3
          (HVal.href 1) ∧
      readHVal (setObj (value_prop [[("b", HVal.hint 1)], [("a", HVal.href 0)]] 1).1
          (value_prop [[("b", HVal.hint 1)], [("a", HVal.href 0)]] 1).2
          (dictSet (getObj [[("b", HVal.hint 1)], [("a", HVal.href 0)]] 1) "c"
            (HVal.hint 5))) 3 (HVal.href 1)
        = readHVal (value_prop [[("b", HVal.hint 1)], [("a", HVal.href 0)]] 1).1 3
          (HVal.href 1)) :=
  ⟨by decide,
    C9_value_shallow_copy [[("b", HVal.hint 1)], [("a", HVal.href 0)]] 1 "c"
      (HVal.hint 5) 3 (by decide) (by decide)⟩

/-- Counterexample for C9 as stated: the copy returned by `value` shares the
nested object `0`; writing `b = 2` into that nested object through the copy
changes what the internal Record Value (object `1`) reads back. -/
theorem C9_nested_mutation_leaks :
    dlookup (getObj (value_prop [[("b", HVal.hint 1)], [("a", HVal.href 0)]] 1).1
        (value_prop [[("b", HVal.hint 1)], [("a", HVal.href 0)]] 1).2) "a"
        = some (HVal.href 0) ∧
      readHVal (setObj (value_prop [[("b", HVal.hint 1)], [("a", HVal.href 0)]] 1).1 0
          (dictSet (getObj (value_prop [[("b", HVal.hint 1)], [("a", HVal.href 0)]] 1).1 0)
            "b" (HVal.hint 2))) 3 (HVal.href 1)
        ≠ readHVal [[("b", HVal.hint 1)], [("a", HVal.href 0)]] 3 (HVal.href 1) := by
  decide
